import Mathlib

/-!
Verification of the Gleipnir nested-sampling core (gleipnir/dnest4.py and
gleipnir/pysb_utilities/hyp_selector.py) against its specification.

Modelling conventions:
- Python floats are idealised as exact rationals; the transcendental
  library functions np.sqrt and np.exp are abstract function parameters
  (in the HypSelector Bayes-factor theorems they are instantiated with
  Real.exp over the reals, where the algebraic claims live).
- Python attribute access is modelled explicitly: a field of type
  Option (Option Q) distinguishes a missing attribute (outer none, an
  AttributeError on access) from an attribute set to the Python value
  None (some none).
- Raising an exception is modelled with Except PyErr.
-/

/-- The kinds of Python exceptions relevant to the modelled code paths. -/
inductive PyErr
  | attributeError
  | runtimeError
  deriving DecidableEq, Repr

/-- A Python float that may be NaN or negative infinity, as relevant to the
log-likelihood failure-semantics claim; ordinary finite values are rationals. -/
inductive PyFloat
  | nan
  | ninf
  | val (q : ℚ)
  deriving DecidableEq, Repr

/-! ## _DNest4Model (gleipnir/dnest4.py lines 29-73) -/

/-- Python float modulo for a positive modulus: x % y = x - y * floor (x / y).
This is the semantics of the % operator used by the external dnest4.wrap. -/
def fmod (x y : ℚ) : ℚ := x - y * (⌊x / y⌋ : ℚ)

/-- The external collaborator dnest4.wrap: modular wrap-around of x into the
interval from a to b, as described by the spec (wrap-around, not clamping):
wrap x a b = (x - a) % (b - a) + a. -/
def wrap (x a b : ℚ) : ℚ := fmod (x - a) (b - a) + a

/-- _DNest4Model.log_likelihood (dnest4.py lines 54-56): it forwards the call
to the user-supplied log-likelihood function and returns its value unchanged. -/
def DNest4Model.log_likelihood (f : List ℚ → PyFloat) (coords : List ℚ) : PyFloat :=
  f coords

/-- Follows the wording of the spec for the log-likelihood failure semantics:
a not-a-number result is mapped to negative infinity before any further use.
This is the comparison definition for the refinement claim; the source
definition is DNest4Model.log_likelihood above. -/
def specMappedLogLikelihood (f : List ℚ → PyFloat) (coords : List ℚ) : PyFloat :=
  match f coords with
  | .nan => .ninf
  | v => v

/-- _DNest4Model.perturb (dnest4.py lines 62-73).  The randomly drawn dimension
idx and the uniform draw u (np.random.uniform, u in the unit interval) are
passed as parameters.  The function mutates coords in place at index idx and
returns 0.0; this is modelled by returning the updated vector paired with the
returned proposal-correction term:
  coords[idx] += widths[idx] * (u - 0.5)
  coords[idx] = wrap(coords[idx], cc - 0.5*cw, cc + 0.5*cw)
  return 0.0 -/
def DNest4Model.perturb {n : ℕ} (widths centers : Fin n → ℚ) (idx : Fin n)
    (u : ℚ) (coords : Fin n → ℚ) : (Fin n → ℚ) × ℚ :=
  let c1 := Function.update coords idx (coords idx + widths idx * (u - 0.5))
  let cw := widths idx
  let cc := centers idx
  (Function.update c1 idx (wrap (c1 idx) (cc - 0.5 * cw) (cc + 0.5 * cw)), 0)

/-! ## DNest4NestedSampling (gleipnir/dnest4.py lines 76-265)

The object state.  Fields named after the underscored Python attributes:
an Option (Option Q) field is none when the attribute has never been
assigned (reading it raises AttributeError) and some v when it holds v,
where v = none models the Python value None.  The dnest4 sampler backend,
the widths/centers estimation and the last-live-sample bookkeeping for the
information criteria are external to the claims and not carried in the
state; the postprocess statistics log_Z and H enter run as parameters. -/

structure NSState where
  population_size : ℕ
  log_evidence : Option (Option ℚ)
  information : Option (Option ℚ)
  logZ_err : Option (Option ℚ)
  evidence_error : Option (Option ℚ)
  evidence : Option (Option ℚ)
  post_eval : Option Bool
  samples : Option (List (List ℚ))
  posteriors_cache : Option (List (String × (List ℚ × List ℚ)))
  deriving DecidableEq, Repr

/-- DNest4NestedSampling.__init__ (dnest4.py lines 107-148): sets
_log_evidence = None, _information = None, _post_eval = False, and defaults
population_size to 25 * n_dims when it was passed as None.  The attributes
_logZ_err, _evidence_error, _evidence, _samples and _posteriors are not
assigned by __init__ (outer none: reading them raises AttributeError). -/
def NSState.init (n_dims : ℕ) (populationSize : Option ℕ) : NSState :=
  { population_size := populationSize.getD (25 * n_dims)
    log_evidence := some none
    information := some none
    logZ_err := none
    evidence_error := none
    evidence := none
    post_eval := some false
    samples := none
    posteriors_cache := none }

/-- The log_evidence property getter (dnest4.py lines 214-218): returns the
stored _log_evidence attribute; AttributeError only if it was never set. -/
def NSState.getLogEvidence (s : NSState) : Except PyErr (Option ℚ) :=
  match s.log_evidence with
  | none => .error .attributeError
  | some v => .ok v

/-- The information property getter (dnest4.py lines 232-235). -/
def NSState.getInformation (s : NSState) : Except PyErr (Option ℚ) :=
  match s.information with
  | none => .error .attributeError
  | some v => .ok v

/-- The evidence property getter (dnest4.py lines 194-197): returns the stored
_evidence attribute, which __init__ never creates. -/
def NSState.getEvidence (s : NSState) : Except PyErr (Option ℚ) :=
  match s.evidence with
  | none => .error .attributeError
  | some v => .ok v

/-- The evidence_error property getter (dnest4.py lines 202-209). -/
def NSState.getEvidenceError (s : NSState) : Except PyErr (Option ℚ) :=
  match s.evidence_error with
  | none => .error .attributeError
  | some v => .ok v

/-- The log_evidence_error property getter (dnest4.py lines 223-227): returns
the stored _logZ_err attribute. -/
def NSState.getLogEvidenceError (s : NSState) : Except PyErr (Option ℚ) :=
  match s.logZ_err with
  | none => .error .attributeError
  | some v => .ok v

/-- The evidence property setter (dnest4.py lines 198-200): the body only
emits a warning and performs no assignment.  The Bool component records that
the warning was emitted. -/
def NSState.setEvidence (s : NSState) (_value : ℚ) : NSState × Bool := (s, true)

/-- The evidence_error property setter (dnest4.py lines 210-212). -/
def NSState.setEvidenceError (s : NSState) (_value : ℚ) : NSState × Bool := (s, true)

/-- The log_evidence property setter (dnest4.py lines 219-221). -/
def NSState.setLogEvidence (s : NSState) (_value : ℚ) : NSState × Bool := (s, true)

/-- The log_evidence_error property setter (dnest4.py lines 228-230). -/
def NSState.setLogEvidenceError (s : NSState) (_value : ℚ) : NSState × Bool := (s, true)

/-- The information property setter (dnest4.py lines 236-238). -/
def NSState.setInformation (s : NSState) (_value : ℚ) : NSState × Bool := (s, true)

/-- DNest4NestedSampling.run (dnest4.py lines 151-192), the derived-results
portion.  The external DNest4 sampler postprocess supplies log_Z and H; the
posterior samples of the backend enter as post.  In source order:
  self._log_evidence = stats[log_Z]
  self._information = stats[H]
  logZ_err = np.sqrt(self._information / self.population_size)
  self._logZ_err = logZ_err
  ev_err = np.exp(logZ_err)
  self._evidence_error = ev_err
  self._evidence = np.exp(self._log_evidence)
  self._samples = np.array(sampler.backend.posterior_samples)
  return self.log_evidence, self.log_evidence_error
np.sqrt and np.exp are the abstract parameters sqrt and exp. -/
def NSState.run (sqrt exp : ℚ → ℚ) (logZ H : ℚ) (post : List (List ℚ))
    (s : NSState) : NSState × (Except PyErr (Option ℚ) × Except PyErr (Option ℚ)) :=
  let logZerr := sqrt (H / (s.population_size : ℚ))
  let s2 : NSState :=
    { s with
      log_evidence := some (some logZ)
      information := some (some H)
      logZ_err := some (some logZerr)
      evidence_error := some (some (exp logZerr))
      evidence := some (some (exp logZ))
      samples := some post }
  (s2, (s2.getLogEvidence, s2.getLogEvidenceError))

/-- Integer cube root: the largest k with k^3 <= n.  This is the exact value
of int(np.cbrt(n)) for a natural n under real cbrt semantics. -/
def icbrt (n : ℕ) : ℕ := Nat.findGreatest (fun k => k ^ 3 ≤ n) n

/-- The bin count selected inside posteriors (dnest4.py line 255):
nbins = 2 * int(np.cbrt(len(samples))). -/
def posteriorNbins (samples : List (List ℚ)) : ℕ := 2 * icbrt samples.length

/-- Follows the wording of the spec for the bin-count rule: 2 * cbrt(n)
rounded down to an integer that is at least 1.  Since the floor of
2 * cbrt(n) equals the floor of cbrt(8 n), this is max 1 (icbrt (8 * n)).
Comparison definition for the bin-count claim; the source definition is
posteriorNbins above. -/
def specPosteriorNbins (n : ℕ) : ℕ := max 1 (icbrt (8 * n))

/-- Bin centers from histogram edges (dnest4.py line 260):
center = (edge[:-1] + edge[1:]) / 2. -/
def binCenters (edge : List ℚ) : List ℚ :=
  List.zipWith (fun a b => (a + b) / 2) edge.dropLast edge.tail

/-- The loop body of posteriors (dnest4.py lines 253-261): for each parameter
dimension, call np.histogram (the abstract parameter hist, returning the
marginal weights and the bin edges) on that column of the posterior samples
with bins = posteriorNbins, and pair the marginal with the bin centers. -/
def posteriorsBody (hist : List ℚ → ℕ → List ℚ × List ℚ) (names : List String)
    (smp : List (List ℚ)) : List (String × (List ℚ × List ℚ)) :=
  let nbins := posteriorNbins smp
  let nd := (smp.headD []).length
  (List.range nd).map fun ii =>
    let col := smp.map fun row => row.getD ii 0
    let me := hist col nbins
    (names.getD ii "", (me.1, binCenters me.2))

/-- DNest4NestedSampling.posteriors (dnest4.py lines 240-265): reads the
_post_eval flag; when it is False, reads _samples (AttributeError when the
attribute was never created, i.e. before any run), computes the per-parameter
histograms, caches them in _posteriors and sets _post_eval; afterwards the
cached _posteriors is returned. -/
def NSState.posteriors (hist : List ℚ → ℕ → List ℚ × List ℚ) (names : List String)
    (s : NSState) : Except PyErr (List (String × (List ℚ × List ℚ)) × NSState) :=
  match s.post_eval with
  | none => .error .attributeError
  | some pe =>
    if pe = false then
      match s.samples with
      | none => .error .attributeError
      | some smp =>
        let r := posteriorsBody hist names smp
        .ok (r, { s with post_eval := some true, posteriors_cache := some r })
    else
      match s.posteriors_cache with
      | none => .error .attributeError
      | some r => .ok (r, s)

/-- A histogram test double that records the bin count it was invoked with:
the marginal it returns is the singleton list holding that count. -/
def histStub : List ℚ → ℕ → List ℚ × List ℚ := fun _ k => ([(k : ℚ)], [])

/-- A state reached by running the sampler on a configuration that produced
four posterior samples of one parameter each (sqrt and exp instantiated with
the identity; their values are irrelevant to posteriors). -/
def s4state : NSState :=
  ((NSState.init 1 none).run id id 0 0 [[0], [1], [2], [3]]).1

/-! ## HypSelector (gleipnir/pysb_utilities/hyp_selector.py) -/

/-- One row of the selection DataFrame built by run_nested_sampling
(hyp_selector.py lines 243-250). -/
structure SelRow where
  model : String
  log_evidence : ℚ
  log_evidence_error : ℚ
  deriving DecidableEq, Repr

/-- The first loop of run_nested_sampling (hyp_selector.py lines 241-242):
call run() on every sampler in order.  A sampler whose run raises is an
error element; the exception propagates immediately (there is no handler),
so the fold stops at the first error. -/
def runSamplers : List (Except PyErr (ℚ × ℚ)) → Except PyErr (List (ℚ × ℚ))
  | [] => .ok []
  | r :: rs =>
    match r with
    | .error e => .error e
    | .ok v =>
      match runSamplers rs with
      | .error e => .error e
      | .ok vs => .ok (v :: vs)

/-- The frame-building loop of run_nested_sampling (hyp_selector.py lines
243-249): row i holds the model name and the log-evidence values read back
from sampler i. -/
def buildFrame (vs : List (ℚ × ℚ)) : List SelRow :=
  vs.enum.map fun p =>
    { model := "model_" ++ toString p.1
      log_evidence := p.2.1
      log_evidence_error := p.2.2 }

/-- Insertion step for sorting rows in descending order of log_evidence. -/
def insertDesc (r : SelRow) : List SelRow → List SelRow
  | [] => [r]
  | x :: xs => if x.log_evidence < r.log_evidence then r :: x :: xs else x :: insertDesc r xs

/-- selection.sort_values(by=[log_evidence], ascending=False)
(hyp_selector.py line 251). -/
def sortDesc : List SelRow → List SelRow
  | [] => []
  | x :: xs => insertDesc x (sortDesc xs)

/-- HypSelector.run_nested_sampling (hyp_selector.py lines 220-253): run every
sampler in order (an uncaught exception aborts the whole call), then build the
selection table sorted descending by log_evidence.  Each list element models
one sampler: the pair of log_evidence and log_evidence_error its run yields,
or the exception its run raises. -/
def runNestedSampling (samplers : List (Except PyErr (ℚ × ℚ))) :
    Except PyErr (List SelRow) :=
  match runSamplers samplers with
  | .error e => .error e
  | .ok vs => .ok (sortDesc (buildFrame vs))

/-- The inner-loop body of HypSelector.bayes_factors (hyp_selector.py lines
270-274): for the outer index i and inner index j, when i and j differ the
entry at row j, column i is overwritten with exp(loge_i - loge_j). -/
def bfInner {α : Type} [Sub α] {n : ℕ} (ex : α → α) (logZ : Fin n → α)
    (i : Fin n) (M : Fin n → Fin n → α) (j : Fin n) : Fin n → Fin n → α :=
  if i ≠ j then
    fun a b => if a = j ∧ b = i then ex (logZ i - logZ j) else M a b
  else M

/-- HypSelector.bayes_factors (hyp_selector.py lines 255-276): start from
np.ones((n, n)) and run the double loop of bfInner over all model indices.
The result is the matrix wrapped into the returned DataFrame (row index and
column index are both the model list, so matrix entries and DataFrame entries
coincide).  The exponential ex is abstract; the claims instantiate it with
Real.exp over the reals. -/
def bayesFactors {α : Type} [One α] [Sub α] (n : ℕ) (ex : α → α)
    (logZ : Fin n → α) : Fin n → Fin n → α :=
  (List.finRange n).foldl
    (fun M i => (List.finRange n).foldl (bfInner ex logZ i) M)
    (fun _ _ => 1)

/-- Concrete log-evidence vector for two models: model 0 has log-evidence 0,
model 1 has log-evidence 1. -/
def logZc : Fin 2 → ℝ := fun i => if i = 0 then 0 else 1

/-- Concrete one-dimensional prior width estimate for witnesses. -/
def widthsOne : Fin 1 → ℚ := fun _ => 2

/-- Concrete one-dimensional prior center estimate for witnesses. -/
def centersOne : Fin 1 → ℚ := fun _ => 0

/-- Concrete one-dimensional starting coordinate, far outside the bounds. -/
def coordsOne : Fin 1 → ℚ := fun _ => 10

/-- Concrete two-dimensional prior width estimates for witnesses. -/
def widthsTwo : Fin 2 → ℚ := fun _ => 3

/-- Concrete two-dimensional prior center estimates for witnesses. -/
def centersTwo : Fin 2 → ℚ := fun _ => 1

/-- Concrete two-dimensional starting coordinates for witnesses. -/
def coordsTwo : Fin 2 → ℚ := fun i => if i = 0 then 5 else 7

theorem fmod_nonneg_lt (x y : ℚ) (hy : 0 < y) : 0 ≤ fmod x y ∧ fmod x y < y := by
  unfold fmod
  constructor
  · have h1 : ((⌊x / y⌋ : ℚ)) ≤ x / y := Int.floor_le (x / y)
    have h2 : ((⌊x / y⌋ : ℚ)) * y ≤ x := (le_div_iff₀ hy).mp h1
    have h3 : y * ((⌊x / y⌋ : ℚ)) = ((⌊x / y⌋ : ℚ)) * y := mul_comm _ _
    linarith
  · have h1 : x / y < (⌊x / y⌋ : ℚ) + 1 := Int.lt_floor_add_one (x / y)
    have h2 : x < ((⌊x / y⌋ : ℚ) + 1) * y := (div_lt_iff₀ hy).mp h1
    have h3 : y * ((⌊x / y⌋ : ℚ)) = ((⌊x / y⌋ : ℚ)) * y := mul_comm _ _
    linarith

theorem wrap_mem (x a b : ℚ) (hab : a < b) : a ≤ wrap x a b ∧ wrap x a b < b := by
  have h := fmod_nonneg_lt (x - a) (b - a) (by linarith)
  unfold wrap
  exact ⟨by linarith [h.1], by linarith [h.2]⟩

theorem bfInner_foldl {α : Type} [Sub α] {n : ℕ} (ex : α → α) (logZ : Fin n → α)
    (i : Fin n) (js : List (Fin n)) (M : Fin n → Fin n → α) (a b : Fin n) :
    (js.foldl (bfInner ex logZ i) M) a b =
      if a ∈ js ∧ i ≠ a ∧ b = i then ex (logZ i - logZ a) else M a b := by
  induction js generalizing M with
  | nil => simp
  | cons j js ih =>
    rw [List.foldl_cons, ih]
    simp only [bfInner, List.mem_cons]
    by_cases hbi : b = i <;> by_cases hia : i = a <;> by_cases haj : a = j <;>
      by_cases hajs : a ∈ js <;> simp_all <;> split_ifs <;> simp_all

theorem bayesFactors_foldl {α : Type} [Sub α] {n : ℕ} (ex : α → α)
    (logZ : Fin n → α) (is : List (Fin n)) (M : Fin n → Fin n → α) (a b : Fin n) :
    (is.foldl (fun M i => (List.finRange n).foldl (bfInner ex logZ i) M) M) a b =
      if b ∈ is ∧ b ≠ a then ex (logZ b - logZ a) else M a b := by
  induction is generalizing M with
  | nil => simp
  | cons i is ih =>
    rw [List.foldl_cons, ih, bfInner_foldl]
    simp only [List.mem_finRange, true_and, List.mem_cons]
    by_cases h1 : b ∈ is <;> by_cases hba : b = a <;> by_cases hbi : b = i <;>
      simp_all

theorem bayesFactors_apply {α : Type} [One α] [Sub α] {n : ℕ} (ex : α → α)
    (logZ : Fin n → α) (a b : Fin n) :
    bayesFactors n ex logZ a b = if a = b then 1 else ex (logZ b - logZ a) := by
  unfold bayesFactors
  rw [bayesFactors_foldl]
  simp only [List.mem_finRange, true_and]
  by_cases h : a = b <;> simp [h, eq_comm]

theorem icbrt_cube_le (n : ℕ) : icbrt n ^ 3 ≤ n := by
  unfold icbrt
  exact Nat.findGreatest_spec (P := fun k => k ^ 3 ≤ n) (m := 0) (Nat.zero_le n) (by simp)

theorem icbrt_lt_succ_cube (n : ℕ) : n < (icbrt n + 1) ^ 3 := by
  by_contra h
  push_neg at h
  have hm : icbrt n + 1 ≤ n :=
    le_trans (Nat.le_self_pow (by norm_num) _) h
  exact Nat.findGreatest_is_greatest (Nat.lt_succ_self _) hm h

theorem icbrt_pos (n : ℕ) (hn : 1 ≤ n) : 1 ≤ icbrt n :=
  Nat.le_findGreatest hn (by simpa using hn)

/-- C1: for every completed run of DNest4NestedSampling, the stored derived
results satisfy log_evidence_error = sqrt(information / population_size) and
evidence_error = exp(log_evidence_error), exactly, for every interpretation
of the numeric library functions sqrt and exp and all postprocess outputs. -/
theorem run_error_relations (sqrt exp : ℚ → ℚ) (logZ H : ℚ)
    (post : List (List ℚ)) (s : NSState) :
    ((NSState.run sqrt exp logZ H post s).1).getInformation = Except.ok (some H) ∧
    ((NSState.run sqrt exp logZ H post s).1).getLogEvidenceError =
      Except.ok (some (sqrt (H / (s.population_size : ℚ)))) ∧
    ((NSState.run sqrt exp logZ H post s).1).getEvidenceError =
      Except.ok (some (exp (sqrt (H / (s.population_size : ℚ))))) :=
  ⟨rfl, rfl, rfl⟩

/-- C2 counterexample: with two completed runs of log-evidences 0 and 1, the
entry at row 0, column 1 of the matrix built by HypSelector.bayes_factors is
exp(logZ_1 - logZ_0) = exp 1, not exp(logZ_0 - logZ_1) = exp (-1) as the
claim states: the code writes exp(loge_i - loge_j) into entry (j, i). -/
theorem bayes_factors_claim_counterexample :
    bayesFactors 2 Real.exp logZc 0 1 ≠ Real.exp (logZc 0 - logZc 1) := by
  rw [bayesFactors_apply]
  norm_num [logZc, Real.exp_eq_exp]

/-- C2 amended: for every pair of distinct models i and j with completed runs,
entry (i, j) of the matrix returned by HypSelector.bayes_factors equals
exp(logZ_j - logZ_i), the transpose orientation of the claimed formula. -/
theorem bayes_factors_entry_transposed {n : ℕ} (logZ : Fin n → ℝ) (i j : Fin n)
    (h : i ≠ j) :
    bayesFactors n Real.exp logZ i j = Real.exp (logZ j - logZ i) := by
  rw [bayesFactors_apply]
  simp [h]

/-- C2 witness: the amended transposed formula evaluated at the two-model
configuration with log-evidences 0 and 1. -/
theorem bayes_factors_entry_transposed_witness :
    (0 : Fin 2) ≠ 1 ∧
      bayesFactors 2 Real.exp logZc 0 1 = Real.exp (logZc 1 - logZc 0) :=
  ⟨by decide, bayes_factors_entry_transposed logZc 0 1 (by decide)⟩

/-- C8: for every pair of models i and j with completed runs, the matrix built
by HypSelector.bayes_factors satisfies BF i j * BF j i = 1, and every diagonal
entry BF i i equals 1 (exactly, in the idealised real semantics). -/
theorem bayes_factors_reciprocal_diagonal {n : ℕ} (logZ : Fin n → ℝ) (i j : Fin n) :
    bayesFactors n Real.exp logZ i j * bayesFactors n Real.exp logZ j i = 1 ∧
    bayesFactors n Real.exp logZ i i = 1 := by
  constructor
  · rw [bayesFactors_apply, bayesFactors_apply]
    by_cases h : i = j
    · simp [h]
    · have hji : ¬ (j = i) := fun hc => h hc.symm
      simp only [h, hji, if_false]
      rw [← Real.exp_add]
      have hz : logZ j - logZ i + (logZ i - logZ j) = 0 := by ring
      rw [hz, Real.exp_zero]
  · simp [bayesFactors_apply]

/-- C3: each application of _DNest4Model.perturb leaves the perturbed
coordinate of the chosen dimension within the closed interval from
center - width/2 to center + width/2 (re-entry by the modular wrap-around of
dnest4.wrap, not clamping), and returns a proposal-correction term equal to
0.0, for any starting coordinates, any chosen dimension of positive estimated
width, and any uniform draw. -/
theorem perturb_stays_in_bounds {n : ℕ} (widths centers : Fin n → ℚ)
    (idx : Fin n) (u : ℚ) (coords : Fin n → ℚ) (hw : 0 < widths idx) :
    (DNest4Model.perturb widths centers idx u coords).1 idx ∈
      Set.Icc (centers idx - widths idx / 2) (centers idx + widths idx / 2) ∧
    (DNest4Model.perturb widths centers idx u coords).2 = 0 := by
  have hab : centers idx - 0.5 * widths idx < centers idx + 0.5 * widths idx := by
    nlinarith
  have h := wrap_mem (coords idx + widths idx * (u - 0.5))
      (centers idx - 0.5 * widths idx) (centers idx + 0.5 * widths idx) hab
  simp only [DNest4Model.perturb, Function.update_same]
  rw [Set.mem_Icc]
  exact ⟨⟨by linarith [h.1], by linarith [h.2]⟩, trivial⟩

/-- C3 witness: one dimension of width 2 centered at 0, starting coordinate 10
far outside the bounds; the perturbed coordinate lands inside the interval
from -1 to 1 and the returned correction term is 0. -/
theorem perturb_stays_in_bounds_witness :
    (0 : ℚ) < widthsOne 0 ∧
    ((DNest4Model.perturb widthsOne centersOne 0 (9/10) coordsOne).1 0 ∈
      Set.Icc (centersOne 0 - widthsOne 0 / 2) (centersOne 0 + widthsOne 0 / 2) ∧
    (DNest4Model.perturb widthsOne centersOne 0 (9/10) coordsOne).2 = 0) :=
  ⟨by norm_num [widthsOne],
   perturb_stays_in_bounds widthsOne centersOne 0 (9/10) coordsOne
     (by norm_num [widthsOne])⟩

/-- C10: _DNest4Model.perturb writes only the chosen dimension of the
coordinate vector: the result is an update of the input vector at the chosen
index, and every coordinate other than the chosen one is unchanged. -/
theorem perturb_frame {n : ℕ} (widths centers : Fin n → ℚ) (idx : Fin n)
    (u : ℚ) (coords : Fin n → ℚ) (j : Fin n) (hj : j ≠ idx) :
    (DNest4Model.perturb widths centers idx u coords).1 j = coords j ∧
    ∃ v, (DNest4Model.perturb widths centers idx u coords).1 =
      Function.update coords idx v := by
  constructor
  · simp [DNest4Model.perturb, Function.update_noteq hj]
  · refine ⟨wrap (coords idx + widths idx * (u - 0.5))
      (centers idx - 0.5 * widths idx) (centers idx + 0.5 * widths idx), ?_⟩
    simp [DNest4Model.perturb, Function.update_same, Function.update_idem]

/-- C10 witness: in two dimensions with dimension 0 chosen, coordinate 1 is
left unchanged and the result is an update of the input at index 0 only. -/
theorem perturb_frame_witness :
    (1 : Fin 2) ≠ 0 ∧
    ((DNest4Model.perturb widthsTwo centersTwo 0 (1/4) coordsTwo).1 1 = coordsTwo 1 ∧
    ∃ v, (DNest4Model.perturb widthsTwo centersTwo 0 (1/4) coordsTwo).1 =
      Function.update coordsTwo 0 v) :=
  ⟨by decide, perturb_frame widthsTwo centersTwo 0 (1/4) coordsTwo 1 (by decide)⟩

/-- C4 counterexample: with three samplers where the second raises during its
run, HypSelector.run_nested_sampling propagates the exception: the batch is
aborted, the third model never runs, and no comparison table containing the
remaining models is produced. -/
theorem run_nested_sampling_abort_counterexample :
    runNestedSampling
      [Except.ok ((2 : ℚ), (0 : ℚ)), Except.error PyErr.runtimeError,
       Except.ok ((1 : ℚ), (0 : ℚ))] = Except.error PyErr.runtimeError := rfl

/-- C4 amended: if any model run raises during HypSelector.run_nested_sampling,
the first such exception propagates out of the call unchanged; no comparison
table is produced and the models after the failing one are never run. -/
theorem run_nested_sampling_propagates_first_error
    (pre post : List (Except PyErr (ℚ × ℚ))) (e : PyErr)
    (hpre : ∀ r ∈ pre, ∃ v, r = Except.ok v) :
    runNestedSampling (pre ++ Except.error e :: post) = Except.error e := by
  unfold runNestedSampling
  have h : runSamplers (pre ++ Except.error e :: post) = Except.error e := by
    induction pre with
    | nil => rfl
    | cons r rs ih =>
      obtain ⟨v, hv⟩ := hpre r (List.mem_cons_self r rs)
      subst hv
      have := ih (fun x hx => hpre x (List.mem_cons_of_mem _ hx))
      simp only [List.cons_append, runSamplers, List.append_eq, this]
  rw [h]

/-- C4 witness: one successful run before and one configured sampler after the
failing one. -/
theorem run_nested_sampling_propagates_first_error_witness :
    (∀ r ∈ ([Except.ok ((2 : ℚ), (0 : ℚ))] : List (Except PyErr (ℚ × ℚ))),
      ∃ v, r = Except.ok v) ∧
    runNestedSampling
      ([Except.ok ((2 : ℚ), (0 : ℚ))] ++ Except.error PyErr.runtimeError ::
        [Except.ok ((1 : ℚ), (0 : ℚ))]) = Except.error PyErr.runtimeError :=
  ⟨by intro r hr; rw [List.mem_singleton] at hr; exact ⟨(2, 0), hr⟩,
   run_nested_sampling_propagates_first_error
     [Except.ok ((2 : ℚ), (0 : ℚ))] [Except.ok ((1 : ℚ), (0 : ℚ))]
     PyErr.runtimeError
     (by intro r hr; rw [List.mem_singleton] at hr; exact ⟨(2, 0), hr⟩)⟩

/-- C5 counterexample: a user log-likelihood that yields NaN on the coordinate
vector [0] is returned as NaN by the _DNest4Model.log_likelihood wrapper, not
mapped to negative infinity as the claim states (the spec-worded mapping
specMappedLogLikelihood would yield negative infinity). -/
theorem log_likelihood_nan_counterexample :
    DNest4Model.log_likelihood (fun _ => PyFloat.nan) [0] = PyFloat.nan ∧
    specMappedLogLikelihood (fun _ => PyFloat.nan) [0] = PyFloat.ninf ∧
    DNest4Model.log_likelihood (fun _ => PyFloat.nan) [0] ≠
      specMappedLogLikelihood (fun _ => PyFloat.nan) [0] := by
  refine ⟨rfl, rfl, ?_⟩
  decide

/-- C5 amended: the _DNest4Model.log_likelihood wrapper returns the value of
the user-supplied log-likelihood function unchanged for every coordinate
vector; a NaN result is propagated as NaN, not remapped to negative
infinity. -/
theorem log_likelihood_forwards (f : List ℚ → PyFloat) (coords : List ℚ) :
    DNest4Model.log_likelihood f coords = f coords := rfl

/-- C7 counterexample: on a freshly constructed DNest4NestedSampling object
(one sampled parameter, default population size), reading the log_evidence
property succeeds and returns the Python value None; it does not signal a
precondition failure. -/
theorem log_evidence_access_counterexample :
    (NSState.init 1 none).getLogEvidence = Except.ok none := rfl

/-- C7 amended: before a finished run, reading evidence, evidence_error or
log_evidence_error raises AttributeError (the backing attributes are never
created by the constructor), and posteriors() raises AttributeError when it
reads the missing samples attribute; but reading log_evidence or information
succeeds and returns the sentinel None, so not every listed access signals a
precondition failure, and the error that is signalled is a plain
AttributeError rather than a distinct not-ready-state error. -/
theorem unready_access_behavior (n_dims : ℕ) (populationSize : Option ℕ)
    (hist : List ℚ → ℕ → List ℚ × List ℚ) (names : List String) :
    (NSState.init n_dims populationSize).getEvidence =
      Except.error PyErr.attributeError ∧
    (NSState.init n_dims populationSize).getEvidenceError =
      Except.error PyErr.attributeError ∧
    (NSState.init n_dims populationSize).getLogEvidenceError =
      Except.error PyErr.attributeError ∧
    (NSState.init n_dims populationSize).posteriors hist names =
      Except.error PyErr.attributeError ∧
    (NSState.init n_dims populationSize).getLogEvidence = Except.ok none ∧
    (NSState.init n_dims populationSize).getInformation = Except.ok none :=
  ⟨rfl, rfl, rfl, rfl, rfl, rfl⟩

/-- C9: for each derived read-only property of DNest4NestedSampling (evidence,
evidence_error, log_evidence, log_evidence_error, information), an attempted
assignment emits a warning, leaves the object state unchanged, and the value
subsequently read back is the same as before the attempted write. -/
theorem setters_warn_and_ignore (s : NSState) (v : ℚ) :
    s.setEvidence v = (s, true) ∧
    s.setEvidenceError v = (s, true) ∧
    s.setLogEvidence v = (s, true) ∧
    s.setLogEvidenceError v = (s, true) ∧
    s.setInformation v = (s, true) ∧
    (s.setEvidence v).1.getEvidence = s.getEvidence ∧
    (s.setEvidenceError v).1.getEvidenceError = s.getEvidenceError ∧
    (s.setLogEvidence v).1.getLogEvidence = s.getLogEvidence ∧
    (s.setLogEvidenceError v).1.getLogEvidenceError = s.getLogEvidenceError ∧
    (s.setInformation v).1.getInformation = s.getInformation :=
  ⟨rfl, rfl, rfl, rfl, rfl, rfl, rfl, rfl, rfl, rfl⟩

/-- C6 counterexample: with 4 equal-weight posterior samples, posteriors()
invokes the histogram with 2 * int(cbrt(4)) = 2 bins (observed through the
recording histogram double histStub), while the claimed formula, the floor of
2 * cbrt(4) = 3.17 (at least 1), gives 3 bins. -/
theorem posteriors_bins_counterexample :
    (NSState.posteriors histStub ["p0"] s4state).map Prod.fst =
      Except.ok [("p0", ([(2 : ℚ)], []))] ∧
    posteriorNbins [[0], [1], [2], [3]] = 2 ∧
    specPosteriorNbins 4 = 3 ∧
    posteriorNbins [[0], [1], [2], [3]] ≠ specPosteriorNbins 4 := by
  refine ⟨by rfl, by decide, by decide, by decide⟩

/-- C6 amended: in posteriors(), the histogram bin count used for every
parameter of a state holding n >= 1 posterior samples is
posteriorNbins = 2 * icbrt n, where icbrt n is the integer cube root (the
truncation int(cbrt(n)), characterised by the two cube inequalities); the
truncation is applied to cbrt(n) before doubling, so the count is an even
integer, at least 2 for n >= 1 (not the floor of 2 * cbrt(n) as claimed). -/
theorem posteriors_bin_count (hist : List ℚ → ℕ → List ℚ × List ℚ)
    (names : List String) (s : NSState) (smp : List (List ℚ))
    (h1 : s.post_eval = some false) (h2 : s.samples = some smp)
    (hn : 1 ≤ smp.length) :
    NSState.posteriors hist names s =
      Except.ok (posteriorsBody hist names smp,
        { s with post_eval := some true,
                 posteriors_cache := some (posteriorsBody hist names smp) }) ∧
    posteriorNbins smp = 2 * icbrt smp.length ∧
    icbrt smp.length ^ 3 ≤ smp.length ∧
    smp.length < (icbrt smp.length + 1) ^ 3 ∧
    2 ≤ posteriorNbins smp := by
  refine ⟨?_, rfl, icbrt_cube_le _, icbrt_lt_succ_cube _, ?_⟩
  · simp [NSState.posteriors, h1, h2]
  · have := icbrt_pos smp.length hn
    unfold posteriorNbins
    omega

/-- C6 witness: the amended bin-count description evaluated on the state with
4 one-parameter posterior samples. -/
theorem posteriors_bin_count_witness :
    (s4state.post_eval = some false ∧
      s4state.samples = some [[0], [1], [2], [3]] ∧
      1 ≤ ([[0], [1], [2], [3]] : List (List ℚ)).length) ∧
    (NSState.posteriors histStub ["p0"] s4state =
      Except.ok (posteriorsBody histStub ["p0"] [[0], [1], [2], [3]],
        { s4state with
            post_eval := some true,
            posteriors_cache :=
              some (posteriorsBody histStub ["p0"] [[0], [1], [2], [3]]) }) ∧
    posteriorNbins [[0], [1], [2], [3]] =
      2 * icbrt ([[0], [1], [2], [3]] : List (List ℚ)).length ∧
    icbrt ([[0], [1], [2], [3]] : List (List ℚ)).length ^ 3 ≤
      ([[0], [1], [2], [3]] : List (List ℚ)).length ∧
    ([[0], [1], [2], [3]] : List (List ℚ)).length <
      (icbrt ([[0], [1], [2], [3]] : List (List ℚ)).length + 1) ^ 3 ∧
    2 ≤ posteriorNbins [[0], [1], [2], [3]]) :=
  ⟨⟨rfl, rfl, by decide⟩,
   posteriors_bin_count histStub ["p0"] s4state [[0], [1], [2], [3]]
     rfl rfl (by decide)⟩
